import Mathlib

/-!
# Verification of the Disaster-Relief-Optimizer core logic

Shallow embedding of the core decision logic of the repository:

* `src/resource_allocator.py` — class `ResourceAllocator`: need estimation
  (`calculate_base_need`, `adjust_for_disaster_type`), priority scoring and
  sorting, per-disaster allocation (`_allocate_to_single_disaster`), the
  allocation pass (`allocate_resources`) and summary preparation
  (`_prepare_allocation_summary`).
* `src/data_preprocessing.py` — class `DisasterDataPreprocessor`: the
  rule-based severity labelling of `create_severity_labels`.

Modelling conventions:

* Python floats are embedded as exact rationals (`ℚ`); the decimal constants
  of the source (`0.8`, `1.2`, …) are written as the exact fractions they
  denote.  Python `int(x)` truncates toward zero; `pyInt` below reproduces
  that on `ℚ`.
* Python dicts over the four fixed resource kinds are embedded as total
  functions `ResourceKind → ℤ`; dict accesses through `.get(k, default)`
  keep that semantics, and accesses through `d[k]` that can raise `KeyError`
  are embedded in the `Except PyError` monad.
* `np.log10`-based priority scores are compared through the exact
  monotone transformation `(max 1 p) * 10 ^ (100 * rank)`: for naturals
  `p`, `rank`, the real score `rank * 100 + log10 (max 1 p)` of the source
  is ordered exactly as that value, so the sort computed here is the sort
  computed by the source (the only divergence would come from float
  rounding of astronomically close scores, which no claim depends on).
* Python's stable `list.sort(key=…, reverse=True)` is embedded as a stable
  insertion sort descending on that key.
-/

namespace DisasterRelief

/-- Python `int(x)` on a rational: truncation toward zero
(`int(2.5) = 2`, `int(-2.5) = -2`). -/
def pyInt (q : ℚ) : ℤ := if q < 0 then ⌈q⌉ else ⌊q⌋

/-- Evaluation helper for `pyInt` on non-negative values. -/
lemma pyInt_eq {q : ℚ} {n : ℤ} (hn : 0 ≤ n) (h1 : (n : ℚ) ≤ q) (h2 : q < n + 1) :
    pyInt q = n := by
  have hq : ¬ q < 0 := not_lt.mpr (le_trans (by exact_mod_cast hn) h1)
  rw [pyInt, if_neg hq]
  exact Int.floor_eq_iff.mpr ⟨h1, h2⟩

lemma pyInt_eq_floor {q : ℚ} (h : 0 ≤ q) : pyInt q = ⌊q⌋ := by
  rw [pyInt, if_neg (not_lt.mpr h)]

lemma pyInt_nonneg {q : ℚ} (h : 0 ≤ q) : 0 ≤ pyInt q := by
  rw [pyInt_eq_floor h]; exact Int.floor_nonneg.mpr h

/-- The four resource kinds of `ResourceAllocator.resource_types`
(`'Food Kits', 'Water Packs', 'Medicine Kits', 'Shelter Units'`). -/
inductive ResourceKind
  | FoodKits
  | WaterPacks
  | MedicineKits
  | ShelterUnits
deriving DecidableEq

/-- `resource_types` in iteration order. -/
def resourceTypes : List ResourceKind :=
  [.FoodKits, .WaterPacks, .MedicineKits, .ShelterUnits]

/-- A resource-quantity mapping over the fixed closed set of kinds
(used both for pools and for need vectors). -/
abbrev Pool := ResourceKind → ℤ

/-- The single kind of Python exception the allocator can raise:
a dict lookup `d[key]` with a missing key. -/
inductive PyError
  | keyError
deriving DecidableEq

/-- `self.severity_weights`: `{'High': 0.5, 'Medium': 0.3, 'Low': 0.2}`;
lookup `self.severity_weights[severity]` raises `KeyError` on other keys,
hence the `Option`. -/
def severityWeights (s : String) : Option ℚ :=
  if s = "High" then some (1/2)
  else if s = "Medium" then some (3/10)
  else if s = "Low" then some (1/5)
  else none

/-- `severity_multipliers` of `calculate_base_need`:
`{'High': 1.5, 'Medium': 1.2, 'Low': 1.0}`. -/
def severityMultipliers (s : String) : Option ℚ :=
  if s = "High" then some (3/2)
  else if s = "Medium" then some (6/5)
  else if s = "Low" then some 1
  else none

/-- `severity_multipliers.get(severity, 1.0)`. -/
def severityMultiplier (s : String) : ℚ := (severityMultipliers s).getD 1

/-- `base_per_person` of `calculate_base_need`:
`{'Food Kits': 0.8, 'Water Packs': 1.2, 'Medicine Kits': 0.3, 'Shelter Units': 0.25}`. -/
def basePerPerson : ResourceKind → ℚ
  | .FoodKits => 4/5
  | .WaterPacks => 6/5
  | .MedicineKits => 3/10
  | .ShelterUnits => 1/4

/-- `ResourceAllocator.calculate_base_need`:
`base_needs[resource] = max(1, int(people_affected * ratio * multiplier))`. -/
def calculate_base_need (people_affected : ℕ) (severity : String) : ResourceKind → ℤ :=
  fun k => max 1 (pyInt ((people_affected : ℚ) * basePerPerson k * severityMultiplier severity))

/-- Python `str.lower()` (embedded at the character-list level). -/
def strLower (s : String) : String := ⟨s.data.map Char.toLower⟩

/-- `chPre pat s`: `pat` is a leading segment of `s`. -/
def chPre : List Char → List Char → Bool
  | [], _ => true
  | _ :: _, [] => false
  | a :: as, b :: bs => a == b && chPre as bs

/-- `chSub pat s`: `pat` occurs contiguously inside `s`
(Python's `pat in s` on strings). -/
def chSub (pat s : List Char) : Bool :=
  chPre pat s ||
    (match s with
     | [] => false
     | _ :: rest => chSub pat rest)

/-- Python `pat in s` for strings. -/
def strContains (s pat : String) : Bool := chSub pat.data s.data

/-- `self.disaster_adjustments['flood']`. -/
def floodAdj : ResourceKind → Option ℚ
  | .WaterPacks => some (6/5)
  | .ShelterUnits => some (13/10)
  | .MedicineKits => some (11/10)
  | _ => none

/-- `self.disaster_adjustments['earthquake']`. -/
def earthquakeAdj : ResourceKind → Option ℚ
  | .ShelterUnits => some (3/2)
  | .MedicineKits => some (13/10)
  | .FoodKits => some (11/10)
  | _ => none

/-- `self.disaster_adjustments['cyclone']`. -/
def cycloneAdj : ResourceKind → Option ℚ
  | .ShelterUnits => some (7/5)
  | .WaterPacks => some (6/5)
  | .FoodKits => some (11/10)
  | _ => none

/-- `self.disaster_adjustments['drought']`. -/
def droughtAdj : ResourceKind → Option ℚ
  | .WaterPacks => some (8/5)
  | .FoodKits => some (13/10)
  | .MedicineKits => some (4/5)
  | _ => none

/-- `self.disaster_adjustments['landslide']`. -/
def landslideAdj : ResourceKind → Option ℚ
  | .MedicineKits => some (7/5)
  | .ShelterUnits => some (6/5)
  | .FoodKits => some (11/10)
  | _ => none

/-- `self.disaster_adjustments['wildfire']`. -/
def wildfireAdj : ResourceKind → Option ℚ
  | .MedicineKits => some (13/10)
  | .WaterPacks => some (6/5)
  | .ShelterUnits => some (11/10)
  | _ => none

/-- `self.disaster_adjustments`, in dict insertion order. -/
def disasterAdjustments : List (String × (ResourceKind → Option ℚ)) :=
  [("flood", floodAdj), ("earthquake", earthquakeAdj), ("cyclone", cycloneAdj),
   ("drought", droughtAdj), ("landslide", landslideAdj), ("wildfire", wildfireAdj)]

/-- The partial-match loop of `adjust_for_disaster_type`: the first table key
`k` with `k in disaster_type_lower or disaster_type_lower in k` wins; when no
key matches, `adjustments = {}` (no kind adjusted). -/
def findAdjustment (dtype : String) : ResourceKind → Option ℚ :=
  match disasterAdjustments.find?
      (fun kv => strContains (strLower dtype) kv.1 || strContains kv.1 (strLower dtype)) with
  | some kv => kv.2
  | none => fun _ => none

/-- `ResourceAllocator.adjust_for_disaster_type`:
`adjusted_needs[resource] = int(adjusted_needs[resource] * factor)` for each
adjusted kind. -/
def adjust_for_disaster_type (base : ResourceKind → ℤ) (dtype : String) : ResourceKind → ℤ :=
  fun k =>
    match findAdjustment dtype k with
    | some f => pyInt ((base k : ℚ) * f)
    | none => base k

/-- A disaster as passed to `allocate_resources`: a dict with keys
`'severity'`, `'people_affected'`, `'disaster_type'`, `'location'`. -/
structure Disaster where
  severity : String
  people_affected : ℕ
  disaster_type : String
  location : String

/-- The need vector computed for one disaster in step 1 of
`allocate_resources` (base needs then type adjustment). -/
def needsOf (d : Disaster) : ResourceKind → ℤ :=
  adjust_for_disaster_type (calculate_base_need d.people_affected d.severity) d.disaster_type

/-- The `disaster_info` dict built in step 1 of `allocate_resources`. -/
structure DisasterInfo where
  index : ℕ
  severity : String
  people_affected : ℕ
  disaster_type : String
  location : String
  needs : ResourceKind → ℤ

/-- Step 1 of `allocate_resources`: one `disaster_info` per input disaster,
with its original index. -/
def infosOf (disasters : List Disaster) : List DisasterInfo :=
  disasters.enum.map fun p =>
    { index := p.1
      severity := p.2.severity
      people_affected := p.2.people_affected
      disaster_type := p.2.disaster_type
      location := p.2.location
      needs := needsOf p.2 }

/-- `total_needs[resource] = Σ adjusted needs across all disasters`
(accumulated in step 1 of `allocate_resources`). -/
def totalNeeds (disasters : List Disaster) : Pool :=
  fun k => (disasters.map fun d => needsOf d k).sum

/-- `severity_scores.get(severity, 1)` of `_calculate_priority_score`. -/
def severityScore (s : String) : ℕ :=
  if s = "High" then 3 else if s = "Medium" then 2 else if s = "Low" then 1 else 1

/-- Exact integer key ordered exactly like the float priority score
`severity_score * 100 + log10(max(1, people_affected))` of
`_calculate_priority_score`: taking `10 ^` of the score gives
`(max 1 p) * 10 ^ (100 * rank)`, and `10 ^ x` is strictly monotone. -/
def priorityKey (d : DisasterInfo) : ℕ :=
  (max 1 d.people_affected) * 10 ^ (100 * severityScore d.severity)

/-- `a` may be placed before `b` in the descending sort (`a`'s priority score
is at least `b`'s). -/
def priorityBefore (a b : DisasterInfo) : Bool := priorityKey b ≤ priorityKey a

/-- Stable insertion into a descending-sorted list: the inserted element goes
in front of the first element whose key is not larger, so an
original-order-earlier element precedes later elements with an equal key,
as Python's stable `sort(..., reverse=True)` guarantees. -/
def insertByPriority (a : DisasterInfo) : List DisasterInfo → List DisasterInfo
  | [] => [a]
  | b :: bs => if priorityBefore a b then a :: b :: bs else b :: insertByPriority a bs

/-- Step 2 of `allocate_resources`:
`disaster_needs.sort(key=lambda x: x['priority_score'], reverse=True)`. -/
def sortByPriority : List DisasterInfo → List DisasterInfo
  | [] => []
  | x :: xs => insertByPriority x (sortByPriority xs)

/-- One entry of `resource_types`' loop in `_allocate_to_single_disaster`:
the amount allocated to one disaster for one kind, given the disaster's need,
the remaining availability and the global total need for that kind.  The
`severity_weights[severity]` dict lookup raises `KeyError` for a severity
other than High/Medium/Low, and is only reached in the scarcity branch. -/
def allocAmount (severity : String) (needed avail total : ℤ) : Except PyError ℤ :=
  if needed ≤ avail then
    .ok needed
  else
    match severityWeights severity with
    | none => .error .keyError
    | some w =>
      if 0 < total then
        .ok (min (min (pyInt ((avail : ℚ) * ((needed : ℚ) / (total : ℚ)) * w)) avail) needed)
      else
        .ok 0

/-- The per-disaster allocation record returned by
`_allocate_to_single_disaster`. -/
structure AllocationRecord where
  disaster_index : ℕ
  severity : String
  people_affected : ℕ
  disaster_type : String
  location : String
  needed : ResourceKind → ℤ
  allocated : ResourceKind → ℤ
  unmet_needs : ResourceKind → ℤ
  fulfillment_rate : ℚ

/-- Sum of a quantity mapping over the four kinds (Python `sum(d.values())`). -/
def sumKinds (f : ResourceKind → ℤ) : ℤ := (resourceTypes.map f).sum

/-- `ResourceAllocator._calculate_fulfillment_rate`. -/
def fulfillmentRate (needs allocated : ResourceKind → ℤ) : ℚ :=
  if sumKinds needs = 0 then 1 else (sumKinds allocated : ℚ) / (sumKinds needs : ℚ)

/-- Runs `allocAmount` for the four kinds in `resource_types` order and
collects the per-kind results into a mapping. -/
def collectKinds (f : ResourceKind → Except PyError ℤ) : Except PyError (ResourceKind → ℤ) := do
  let a ← f .FoodKits
  let b ← f .WaterPacks
  let c ← f .MedicineKits
  let d ← f .ShelterUnits
  .ok fun k =>
    match k with
    | .FoodKits => a
    | .WaterPacks => b
    | .MedicineKits => c
    | .ShelterUnits => d

/-- `ResourceAllocator._allocate_to_single_disaster`. -/
def allocateToSingleDisaster (info : DisasterInfo) (avail total : Pool) :
    Except PyError AllocationRecord := do
  let alloc ← collectKinds fun k => allocAmount info.severity (info.needs k) (avail k) (total k)
  .ok
    { disaster_index := info.index
      severity := info.severity
      people_affected := info.people_affected
      disaster_type := info.disaster_type
      location := info.location
      needed := info.needs
      allocated := alloc
      unmet_needs := fun k => info.needs k - alloc k
      fulfillment_rate := fulfillmentRate info.needs alloc }

/-- The dict state of an allocation pass: the caller's
`available_resources` dict and the separate `remaining_resources` dict
created from it by `.copy()` in step 3 of `allocate_resources`. -/
structure PassState where
  callerPool : Pool
  remaining : Pool

/-- One iteration of the step-3 loop: allocate to one disaster, then
`remaining_resources[resource] -= amount` — the only mutation of the pass,
and it targets the copy, never the caller's dict. -/
def allocationStep (total : Pool) (st : PassState) (info : DisasterInfo) :
    Except PyError (PassState × AllocationRecord) := do
  let r ← allocateToSingleDisaster info st.remaining total
  .ok ({ st with remaining := fun k => st.remaining k - r.allocated k }, r)

/-- The step-3 loop of `allocate_resources` over the sorted disasters. -/
def runAllocation (total : Pool) :
    List DisasterInfo → PassState → Except PyError (List AllocationRecord × PassState)
  | [], st => .ok ([], st)
  | i :: rest, st => do
    let p ← allocationStep total st i
    let q ← runAllocation total rest p.1
    .ok (p.2 :: q.1, q.2)

/-- The summary dict of `_prepare_allocation_summary` (flattened). -/
structure AllocationSummary where
  allocations : List AllocationRecord
  total_disasters : ℕ
  total_people_affected : ℕ
  resource_utilization : ResourceKind → ℚ
  avg_fulfillment_by_severity : String → ℚ
  total_allocated : Pool
  remaining_resources : Pool
  total_needs : Pool

/-- The `severity_stats` grouping of `_prepare_allocation_summary`:
`severity_stats = {'High': [], 'Medium': [], 'Low': []}` and then
`severity_stats[allocation['severity']].append(rate)` — a `KeyError` for any
other severity string.  Rates are collected in allocation order. -/
def severityStats : List AllocationRecord → Except PyError (String → List ℚ)
  | [] => .ok fun _ => []
  | a :: rest => do
    let f ← severityStats rest
    if a.severity = "High" ∨ a.severity = "Medium" ∨ a.severity = "Low" then
      .ok fun s => if s = a.severity then a.fulfillment_rate :: f s else f s
    else
      .error .keyError

/-- `np.mean(rates) * 100` with `0` for an empty group. -/
def avgOf (l : List ℚ) : ℚ := if l = [] then 0 else (l.sum / l.length) * 100

/-- `ResourceAllocator._prepare_allocation_summary`. -/
def prepareAllocationSummary (disasters : List Disaster) (allocations : List AllocationRecord)
    (available remaining total : Pool) : Except PyError AllocationSummary := do
  let totalAlloc : Pool := fun k => (allocations.map fun a => a.allocated k).sum
  let stats ← severityStats allocations
  .ok
    { allocations := allocations
      total_disasters := disasters.length
      total_people_affected := (disasters.map (·.people_affected)).sum
      resource_utilization := fun k =>
        if 0 < available k then ((totalAlloc k : ℚ) / (available k : ℚ)) * 100 else 0
      avg_fulfillment_by_severity := fun s => avgOf (stats s)
      total_allocated := totalAlloc
      remaining_resources := remaining
      total_needs := total }

/-- `ResourceAllocator.allocate_resources`, with the caller's pool dict
threaded through explicitly: the returned second component is the caller's
dict as the call leaves it (the source mutates only the `.copy()`). -/
def allocateResourcesSt (disasters : List Disaster) (pool : Pool) :
    Except PyError (AllocationSummary × Pool) := do
  let r ← runAllocation (totalNeeds disasters) (sortByPriority (infosOf disasters))
    { callerPool := pool, remaining := pool }
  let s ← prepareAllocationSummary disasters r.1 pool r.2.remaining (totalNeeds disasters)
  .ok (s, r.2.callerPool)

/-- `ResourceAllocator.allocate_resources` (summary view). -/
def allocate_resources (disasters : List Disaster) (pool : Pool) :
    Except PyError AllocationSummary :=
  (allocateResourcesSt disasters pool).map Prod.fst

/-! ## Basic lemmas about the allocation primitives -/

@[simp] lemma ok_bind {α β : Type} (a : α) (f : α → Except PyError β) :
    (Except.ok a >>= f) = f a := rfl

@[simp] lemma error_bind {α β : Type} (e : PyError) (f : α → Except PyError β) :
    ((Except.error e : Except PyError α) >>= f) = .error e := rfl

lemma severityWeights_pos {s : String} {w : ℚ} (h : severityWeights s = some w) : 0 < w := by
  unfold severityWeights at h
  split_ifs at h <;> simp_all <;> norm_num [← h]

/-- The fast path of `_allocate_to_single_disaster`: a need no larger than
the remaining availability is allocated in full. -/
lemma allocAmount_fast (sev : String) {needed avail : ℤ} (total : ℤ) (h : needed ≤ avail) :
    allocAmount sev needed avail total = .ok needed := by
  rw [allocAmount, if_pos h]

lemma allocAmount_le_avail {sev : String} {needed avail total x : ℤ}
    (h : allocAmount sev needed avail total = .ok x) (ha : 0 ≤ avail) : x ≤ avail := by
  rw [allocAmount] at h
  split at h
  · injection h with h
    omega
  · split at h
    · cases h
    · split at h <;> injection h with h <;> omega

lemma allocAmount_nonneg {sev : String} {needed avail total x : ℤ}
    (h : allocAmount sev needed avail total = .ok x) (ha : 0 ≤ avail) (hn : 0 ≤ needed) :
    0 ≤ x := by
  rw [allocAmount] at h
  split at h
  · injection h with h
    omega
  · split at h
    · cases h
    · rename_i w hw
      split at h <;> injection h with h
      · rename_i ht
        have hwpos : 0 < w := severityWeights_pos hw
        have hq : 0 ≤ (avail : ℚ) * ((needed : ℚ) / (total : ℚ)) * w := by
          have h1 : (0 : ℚ) ≤ (avail : ℚ) := by exact_mod_cast ha
          have h2 : (0 : ℚ) ≤ (needed : ℚ) / (total : ℚ) := by
            apply div_nonneg (by exact_mod_cast hn)
            exact_mod_cast le_of_lt ht
          positivity
        have := pyInt_nonneg hq
        omega
      · omega

lemma allocAmount_le_needed {sev : String} {needed avail total x : ℤ}
    (h : allocAmount sev needed avail total = .ok x) (hn : 0 ≤ needed) : x ≤ needed := by
  rw [allocAmount] at h
  split at h
  · injection h with h
    omega
  · split at h
    · cases h
    · split at h <;> injection h with h <;> omega

lemma collectKinds_const (g : ResourceKind → ℤ) :
    collectKinds (fun k => .ok (g k)) = .ok g := by
  show Except.ok (fun k =>
    match k with
    | ResourceKind.FoodKits => g .FoodKits
    | ResourceKind.WaterPacks => g .WaterPacks
    | ResourceKind.MedicineKits => g .MedicineKits
    | ResourceKind.ShelterUnits => g .ShelterUnits) = .ok g
  congr 1
  funext k
  cases k <;> rfl

lemma collectKinds_ok {f : ResourceKind → Except PyError ℤ} {g : ResourceKind → ℤ}
    (h : collectKinds f = .ok g) (k : ResourceKind) : f k = .ok (g k) := by
  unfold collectKinds at h
  rcases h1 : f .FoodKits with e | a <;> rw [h1] at h
  · rw [error_bind] at h
    exact Except.noConfusion h
  rw [ok_bind] at h
  rcases h2 : f .WaterPacks with e | b <;> rw [h2] at h
  · rw [error_bind] at h
    exact Except.noConfusion h
  rw [ok_bind] at h
  rcases h3 : f .MedicineKits with e | c <;> rw [h3] at h
  · rw [error_bind] at h
    exact Except.noConfusion h
  rw [ok_bind] at h
  rcases h4 : f .ShelterUnits with e | d <;> rw [h4] at h
  · rw [error_bind] at h
    exact Except.noConfusion h
  rw [ok_bind] at h
  injection h with h
  cases k <;> rw [← h] <;> assumption

lemma fulfillmentRate_self (needs : ResourceKind → ℤ) : fulfillmentRate needs needs = 1 := by
  unfold fulfillmentRate
  split
  · rfl
  · next h => exact div_self (by exact_mod_cast h)

/-- Field view of a successful `_allocate_to_single_disaster` call. -/
lemma allocateToSingleDisaster_ok {info : DisasterInfo} {avail total : Pool}
    {r : AllocationRecord} (h : allocateToSingleDisaster info avail total = .ok r) :
    (∀ k, allocAmount info.severity (info.needs k) (avail k) (total k) = .ok (r.allocated k)) ∧
    r.severity = info.severity ∧ r.needed = info.needs ∧
    (∀ k, r.unmet_needs k = info.needs k - r.allocated k) ∧
    r.fulfillment_rate = fulfillmentRate info.needs r.allocated := by
  unfold allocateToSingleDisaster at h
  rcases hc : collectKinds
      (fun k => allocAmount info.severity (info.needs k) (avail k) (total k)) with e | g <;>
    rw [hc] at h
  · rw [error_bind] at h
    exact Except.noConfusion h
  · rw [ok_bind] at h
    injection h with h
    subst h
    exact ⟨fun k => collectKinds_ok hc k, rfl, rfl, fun k => rfl, rfl⟩

/-- The record `_allocate_to_single_disaster` returns when every need takes
the fast path: full allocation of every kind. -/
def fastRecordOf (info : DisasterInfo) : AllocationRecord :=
  { disaster_index := info.index
    severity := info.severity
    people_affected := info.people_affected
    disaster_type := info.disaster_type
    location := info.location
    needed := info.needs
    allocated := info.needs
    unmet_needs := fun k => info.needs k - info.needs k
    fulfillment_rate := fulfillmentRate info.needs info.needs }

/-- The record produced by `_allocate_to_single_disaster` given the four
per-kind allocation amounts. -/
lemma allocateToSingleDisaster_eq {info : DisasterInfo} {avail total : Pool}
    {g : ResourceKind → ℤ}
    (h : ∀ k, allocAmount info.severity (info.needs k) (avail k) (total k) = .ok (g k)) :
    allocateToSingleDisaster info avail total =
      .ok
        { disaster_index := info.index
          severity := info.severity
          people_affected := info.people_affected
          disaster_type := info.disaster_type
          location := info.location
          needed := info.needs
          allocated := g
          unmet_needs := fun k => info.needs k - g k
          fulfillment_rate := fulfillmentRate info.needs g } := by
  unfold allocateToSingleDisaster
  rw [show (fun k => allocAmount info.severity (info.needs k) (avail k) (total k)) =
    fun k => .ok (g k) from funext h, collectKinds_const, ok_bind]

/-- When every need fits into the remaining availability, the record has
`allocated = needed`, all unmet needs `0`, and full fulfillment. -/
lemma allocateToSingleDisaster_fast {info : DisasterInfo} {avail : Pool} (total : Pool)
    (h : ∀ k, info.needs k ≤ avail k) :
    allocateToSingleDisaster info avail total = .ok (fastRecordOf info) := by
  unfold allocateToSingleDisaster fastRecordOf
  have h1 : (fun k => allocAmount info.severity (info.needs k) (avail k) (total k)) =
      fun k => .ok (info.needs k) := by
    funext k
    exact allocAmount_fast _ _ (h k)
  rw [h1, collectKinds_const, ok_bind]

/-- Value-level description of a successful step-3 loop run: the caller's
dict is untouched, the remaining dict decreases by exactly the allocated
sums, and records appear in processing order with the infos' severities. -/
lemma runAllocation_ok {total : Pool} :
    ∀ {infos : List DisasterInfo} {st : PassState}
      {out : List AllocationRecord × PassState},
      runAllocation total infos st = .ok out →
      out.2.callerPool = st.callerPool ∧
      (∀ k, out.2.remaining k = st.remaining k - ((out.1.map fun a => a.allocated k).sum)) ∧
      (out.1.map fun a => a.severity) = infos.map (·.severity) ∧
      out.1.length = infos.length := by
  intro infos
  induction infos with
  | nil =>
    intro st out h
    rw [runAllocation] at h
    injection h with h
    subst h
    exact ⟨rfl, fun k => by simp, rfl, rfl⟩
  | cons i rest ih =>
    intro st out h
    rw [runAllocation, allocationStep] at h
    rcases h1 : allocateToSingleDisaster i st.remaining total with e | r <;> rw [h1] at h
    · rw [error_bind] at h
      exact Except.noConfusion h
    · simp only [ok_bind] at h
      rcases h2 : runAllocation total rest
          { st with remaining := fun k => st.remaining k - r.allocated k } with e | out' <;>
        rw [h2] at h
      · rw [error_bind] at h
        exact Except.noConfusion h
      · rw [ok_bind] at h
        injection h with h
        subst h
        obtain ⟨hc, hrem, hsev, hlen⟩ := ih h2
        dsimp only
        refine ⟨hc, fun k => ?_, ?_, ?_⟩
        · have hthis := hrem k
          dsimp only at hthis
          simp only [List.map_cons, List.sum_cons]
          omega
        · simp only [List.map_cons, hsev]
          have := (allocateToSingleDisaster_ok h1).2.1
          rw [this]
        · simp only [List.length_cons, hlen]

/-- The remaining pool stays non-negative throughout the pass when the
initial pool and all needs are non-negative. -/
lemma runAllocation_nonneg {total : Pool} :
    ∀ {infos : List DisasterInfo} {st : PassState}
      {out : List AllocationRecord × PassState},
      runAllocation total infos st = .ok out →
      (∀ i ∈ infos, ∀ k, 0 ≤ i.needs k) →
      (∀ k, 0 ≤ st.remaining k) →
      ∀ k, 0 ≤ out.2.remaining k := by
  intro infos
  induction infos with
  | nil =>
    intro st out h _ hrem
    rw [runAllocation] at h
    injection h with h
    subst h
    exact hrem
  | cons i rest ih =>
    intro st out h hneeds hrem
    rw [runAllocation, allocationStep] at h
    rcases h1 : allocateToSingleDisaster i st.remaining total with e | r <;> rw [h1] at h
    · rw [error_bind] at h
      exact Except.noConfusion h
    · simp only [ok_bind] at h
      rcases h2 : runAllocation total rest
          { st with remaining := fun k => st.remaining k - r.allocated k } with e | out' <;>
        rw [h2] at h
      · rw [error_bind] at h
        exact Except.noConfusion h
      · rw [ok_bind] at h
        injection h with h
        subst h
        dsimp only
        refine ih h2 (fun j hj k => hneeds j (List.mem_cons_of_mem _ hj) k) fun k => ?_
        have halloc := (allocateToSingleDisaster_ok h1).1 k
        have := allocAmount_le_avail halloc (hrem k)
        dsimp only
        omega

/-- Every factor in the disaster-type adjustment tables is non-negative. -/
lemma disasterAdjustments_nonneg :
    ∀ kv ∈ disasterAdjustments, ∀ k f, kv.2 k = some f → 0 ≤ f := by
  intro kv hkv k f h
  simp only [disasterAdjustments, List.mem_cons, List.not_mem_nil, or_false] at hkv
  rcases hkv with rfl | rfl | rfl | rfl | rfl | rfl <;> cases k <;>
    simp only [floodAdj, earthquakeAdj, cycloneAdj, droughtAdj, landslideAdj, wildfireAdj,
      Option.some.injEq, reduceCtorEq] at h <;>
    first
      | exact absurd h (by simp)
      | (rw [← h]; norm_num)

lemma findAdjustment_nonneg {dtype : String} {k : ResourceKind} {f : ℚ}
    (h : findAdjustment dtype k = some f) : 0 ≤ f := by
  unfold findAdjustment at h
  rcases hfind : disasterAdjustments.find?
      (fun kv => strContains (strLower dtype) kv.1 || strContains kv.1 (strLower dtype)) with
    _ | kv <;> rw [hfind] at h
  · exact Option.noConfusion h
  · exact disasterAdjustments_nonneg kv (List.mem_of_find?_eq_some hfind) k f h

lemma calculate_base_need_pos (p : ℕ) (sev : String) (k : ResourceKind) :
    1 ≤ calculate_base_need p sev k :=
  le_max_left _ _

lemma needsOf_nonneg (d : Disaster) (k : ResourceKind) : 0 ≤ needsOf d k := by
  unfold needsOf adjust_for_disaster_type
  rcases hf : findAdjustment d.disaster_type k with _ | f
  · exact le_trans one_pos.le (calculate_base_need_pos _ _ _)
  · apply pyInt_nonneg
    have h1 : (0 : ℚ) ≤ (calculate_base_need d.people_affected d.severity k : ℚ) := by
      exact_mod_cast le_trans one_pos.le (calculate_base_need_pos _ _ _)
    exact mul_nonneg h1 (findAdjustment_nonneg hf)

lemma infosOf_needs_nonneg {disasters : List Disaster} :
    ∀ i ∈ infosOf disasters, ∀ k, 0 ≤ i.needs k := by
  intro i hi k
  unfold infosOf at hi
  obtain ⟨p, _, rfl⟩ := List.mem_map.mp hi
  exact needsOf_nonneg _ _

/-- Field view of a successful `_prepare_allocation_summary` call. -/
lemma prepareAllocationSummary_ok {disasters : List Disaster}
    {allocations : List AllocationRecord} {available remaining total : Pool}
    {s : AllocationSummary}
    (h : prepareAllocationSummary disasters allocations available remaining total = .ok s) :
    s.allocations = allocations ∧ s.remaining_resources = remaining ∧
    s.total_allocated = fun k => (allocations.map fun a => a.allocated k).sum := by
  unfold prepareAllocationSummary at h
  rcases hs : severityStats allocations with e | stats <;> rw [hs] at h
  · rw [error_bind] at h
    exact Except.noConfusion h
  · rw [ok_bind] at h
    injection h with h
    subst h
    exact ⟨rfl, rfl, rfl⟩

/-- Decomposition of a successful `allocate_resources` call. -/
lemma allocate_resources_ok {disasters : List Disaster} {pool : Pool} {s : AllocationSummary}
    (h : allocate_resources disasters pool = .ok s) :
    ∃ out : List AllocationRecord × PassState,
      runAllocation (totalNeeds disasters) (sortByPriority (infosOf disasters))
          { callerPool := pool, remaining := pool } = .ok out ∧
      prepareAllocationSummary disasters out.1 pool out.2.remaining
          (totalNeeds disasters) = .ok s := by
  unfold allocate_resources allocateResourcesSt at h
  rcases hrun : runAllocation (totalNeeds disasters) (sortByPriority (infosOf disasters))
      { callerPool := pool, remaining := pool } with e | out <;>
    simp only [hrun, ok_bind, error_bind, Except.map] at h
  · exact Except.noConfusion h
  · rcases hsum : prepareAllocationSummary disasters out.1 pool out.2.remaining
        (totalNeeds disasters) with e | s' <;>
      simp only [hsum, ok_bind, error_bind] at h
    · exact Except.noConfusion h
    · simp only [Except.map, Except.ok.injEq] at h
      exact ⟨out, rfl, by rw [hsum, h]⟩

lemma mem_insertByPriority {i a : DisasterInfo} {l : List DisasterInfo}
    (h : i ∈ insertByPriority a l) : i = a ∨ i ∈ l := by
  induction l with
  | nil =>
    rw [insertByPriority] at h
    simp only [List.mem_singleton] at h
    exact Or.inl h
  | cons b bs ih =>
    rw [insertByPriority] at h
    split at h
    · simp only [List.mem_cons] at h
      rcases h with h | h | h
      · exact Or.inl h
      · exact Or.inr (by simp [h])
      · exact Or.inr (List.mem_cons_of_mem _ h)
    · simp only [List.mem_cons] at h
      rcases h with h | h
      · exact Or.inr (by simp [h])
      · rcases ih h with h | h
        · exact Or.inl h
        · exact Or.inr (List.mem_cons_of_mem _ h)

lemma mem_sortByPriority {i : DisasterInfo} {l : List DisasterInfo}
    (h : i ∈ sortByPriority l) : i ∈ l := by
  induction l with
  | nil => exact absurd h (by rw [sortByPriority]; simp)
  | cons x xs ih =>
    rw [sortByPriority] at h
    rcases mem_insertByPriority h with h | h
    · simp [h]
    · exact List.mem_cons_of_mem _ (ih h)

/-! ## C1: conservation of the resource pool -/

/-- C1: for every allocation pass over a pool that maps each resource kind
to a non-negative quantity, and for every resource kind, the sum of
`allocated[kind]` over the returned per-disaster allocations is at most the
initial pool quantity for that kind, and the remaining pool after the pass
(the depleted copy returned in the summary) is non-negative — the running
remaining pool never goes negative. -/
theorem allocation_conserves_pool (disasters : List Disaster) (pool : Pool)
    (s : AllocationSummary) (hpool : ∀ k, 0 ≤ pool k)
    (h : allocate_resources disasters pool = .ok s) (k : ResourceKind) :
    (s.allocations.map fun a => a.allocated k).sum ≤ pool k ∧
    0 ≤ s.remaining_resources k := by
  obtain ⟨out, hrun, hsum⟩ := allocate_resources_ok h
  obtain ⟨halloc, hrem, _⟩ := prepareAllocationSummary_ok hsum
  obtain ⟨_, hremaining, _, _⟩ := runAllocation_ok hrun
  have hnn := runAllocation_nonneg hrun
    (fun i hi k => infosOf_needs_nonneg i (mem_sortByPriority hi) k) hpool
  have h1 := hremaining k
  dsimp only at h1
  have h2 := hnn k
  rw [halloc, hrem]
  constructor <;> omega

/-- The summary returned for an empty disaster list and the constant pool 5,
exactly as `allocate_resources` builds it. -/
def emptySummary : AllocationSummary :=
  { allocations := []
    total_disasters := 0
    total_people_affected := 0
    resource_utilization := fun _ =>
      if 0 < (5 : ℤ) then (((0 : ℤ) : ℚ) / ((5 : ℤ) : ℚ)) * 100 else 0
    avg_fulfillment_by_severity := fun _ => avgOf []
    total_allocated := fun _ => 0
    remaining_resources := fun _ => 5
    total_needs := fun _ => 0 }

/-- Witness for C1 at a concrete input. -/
theorem allocation_conserves_pool_witness :
    (emptySummary.allocations.map fun a => a.allocated ResourceKind.FoodKits).sum ≤ 5 ∧
    0 ≤ emptySummary.remaining_resources ResourceKind.FoodKits :=
  allocation_conserves_pool [] (fun _ => 5) emptySummary
    (fun k => by show (0 : ℤ) ≤ 5; decide) rfl .FoodKits

/-! ## C2: the fair-share formula under scarcity -/

/-- C2: when a disaster's need for a kind strictly exceeds the remaining
supply at the time it is processed, the allocated amount equals
`floor(remaining * (need / total_need) * severity_weight)` clamped to
`[0, min(remaining, need)]`, with weights High `1/2`, Medium `3/10`,
Low `1/5`; in particular a kind with zero remaining supply is allocated `0`
and its unmet need equals the full need. -/
theorem fair_share_formula (sev : String) (w : ℚ) (needed avail total : ℤ)
    (hw : (sev = "High" ∧ w = 1/2) ∨ (sev = "Medium" ∧ w = 3/10) ∨ (sev = "Low" ∧ w = 1/5))
    (hscarce : avail < needed) (havail : 0 ≤ avail) (htot : needed ≤ total) :
    allocAmount sev needed avail total =
      .ok (max 0 (min ⌊(avail : ℚ) * ((needed : ℚ) / (total : ℚ)) * w⌋ (min avail needed))) ∧
    (∀ (info : DisasterInfo) (rem tot : Pool) (r : AllocationRecord) (k : ResourceKind),
      info.severity = sev → rem k = 0 → 0 < info.needs k →
      allocateToSingleDisaster info rem tot = .ok r →
      r.allocated k = 0 ∧ r.unmet_needs k = info.needs k) := by
  have hwv : severityWeights sev = some w := by
    rcases hw with ⟨rfl, rfl⟩ | ⟨rfl, rfl⟩ | ⟨rfl, rfl⟩ <;> rfl
  constructor
  · have hneedpos : 0 < needed := lt_of_le_of_lt havail hscarce
    have htotpos : 0 < total := lt_of_lt_of_le hneedpos htot
    simp only [allocAmount, if_neg (not_le.mpr hscarce), hwv, if_pos htotpos]
    have hq : 0 ≤ (avail : ℚ) * ((needed : ℚ) / (total : ℚ)) * w := by
      have h1 : (0 : ℚ) ≤ (avail : ℚ) := by exact_mod_cast havail
      have h2 : (0 : ℚ) ≤ (needed : ℚ) / (total : ℚ) := by
        apply div_nonneg (by exact_mod_cast hneedpos.le)
        exact_mod_cast htotpos.le
      have h3 : 0 < w := severityWeights_pos hwv
      positivity
    rw [pyInt_eq_floor hq]
    have hf : 0 ≤ ⌊(avail : ℚ) * ((needed : ℚ) / (total : ℚ)) * w⌋ := Int.floor_nonneg.mpr hq
    congr 1
    omega
  · intro info rem tot r k hsev hzero hpos hok
    have halloc := (allocateToSingleDisaster_ok hok).1 k
    rw [hzero] at halloc
    have h1 := allocAmount_le_avail halloc le_rfl
    have h2 := allocAmount_nonneg halloc le_rfl hpos.le
    have hunmet := (allocateToSingleDisaster_ok hok).2.2.2.1 k
    constructor
    · omega
    · rw [hunmet]
      omega

/-- Witness for C2 at a concrete input: severity High, need 5, remaining 3,
total need 10. -/
theorem fair_share_formula_witness :
    allocAmount "High" 5 3 10 =
      .ok (max 0 (min ⌊(((3 : ℤ) : ℚ)) * ((((5 : ℤ) : ℚ)) / (((10 : ℤ) : ℚ))) * (1/2)⌋
        (min 3 5))) :=
  (fair_share_formula "High" (1/2) 5 3 10 (Or.inl ⟨rfl, rfl⟩)
    (by decide) (by decide) (by decide)).1

/-! ## C3: the fast path allocates the exact need -/

/-- The single `disaster_info` built for a one-disaster pass. -/
def singleInfo (d : Disaster) : DisasterInfo :=
  { index := 0
    severity := d.severity
    people_affected := d.people_affected
    disaster_type := d.disaster_type
    location := d.location
    needs := needsOf d }

lemma severityStats_single (r : AllocationRecord)
    (h : r.severity = "High" ∨ r.severity = "Medium" ∨ r.severity = "Low") :
    severityStats [r] =
      .ok (fun s => if s = r.severity then r.fulfillment_rate :: [] else []) := by
  rw [severityStats, severityStats, ok_bind, if_pos h]

lemma single_run (d : Disaster) (pool : Pool) (hfits : ∀ k, needsOf d k ≤ pool k) :
    runAllocation (totalNeeds [d]) [singleInfo d] { callerPool := pool, remaining := pool } =
      .ok ([fastRecordOf (singleInfo d)],
        { callerPool := pool
          remaining := fun k => pool k - (fastRecordOf (singleInfo d)).allocated k }) := by
  rw [runAllocation, allocationStep,
    allocateToSingleDisaster_fast (totalNeeds [d]) (fun k => hfits k)]
  simp only [ok_bind]
  rw [runAllocation]
  simp only [ok_bind]

/-- C3: a need at most the remaining supply is allocated exactly (the fast
path, including when need equals remaining exactly); consequently a single
disaster whose need for every kind is at most the pool availability has
fulfillment rate exactly `1`. -/
theorem fast_path_exact (sev : String) (needed avail total : ℤ) (hle : needed ≤ avail)
    (d : Disaster) (pool : Pool)
    (hsev : d.severity = "High" ∨ d.severity = "Medium" ∨ d.severity = "Low")
    (hfits : ∀ k, needsOf d k ≤ pool k) :
    allocAmount sev needed avail total = .ok needed ∧
    (allocate_resources [d] pool).toOption.map
        (fun s => s.allocations.map fun r => r.fulfillment_rate) = some [1] := by
  refine ⟨allocAmount_fast sev total hle, ?_⟩
  have hrun := single_run d pool hfits
  unfold allocate_resources allocateResourcesSt
  rw [show sortByPriority (infosOf [d]) = [singleInfo d] from rfl]
  rw [hrun]
  simp only [ok_bind]
  rw [prepareAllocationSummary]
  rw [severityStats_single _ hsev]
  simp only [ok_bind, Except.map, Except.toOption, Option.map, List.map_cons, List.map_nil]
  rw [show (fastRecordOf (singleInfo d)).fulfillment_rate =
    fulfillmentRate (needsOf d) (needsOf d) from rfl, fulfillmentRate_self]

/-- Witness for C3: need 7 exactly equal to remaining 7 is allocated in
full, and the single disaster (High, 2 people, tsunami) against a pool of
100 of each kind is fulfilled at rate exactly 1. -/
theorem fast_path_exact_witness :
    allocAmount "Low" 7 7 7 = .ok 7 ∧
    (allocate_resources [⟨"High", 2, "tsunami", "L"⟩] (fun _ => 100)).toOption.map
        (fun s => s.allocations.map fun r => r.fulfillment_rate) = some [1] :=
  fast_path_exact "Low" 7 7 7 le_rfl ⟨"High", 2, "tsunami", "L"⟩ (fun _ => 100)
    (Or.inl rfl)
    (by
      intro k
      have hadj : findAdjustment "tsunami" = fun _ => none := rfl
      have hne : needsOf ⟨"High", 2, "tsunami", "L"⟩ k = calculate_base_need 2 "High" k := by
        simp only [needsOf, adjust_for_disaster_type, hadj]
      rw [hne]
      show max 1 (pyInt (((2 : ℕ) : ℚ) * basePerPerson k * severityMultiplier "High")) ≤
        (fun _ => (100 : ℤ)) k
      cases k
      · rw [show basePerPerson ResourceKind.FoodKits = 4/5 from rfl,
          show severityMultiplier "High" = 3/2 from rfl,
          pyInt_eq (n := 2) (by norm_num) (by norm_num) (by norm_num)]
        decide
      · rw [show basePerPerson ResourceKind.WaterPacks = 6/5 from rfl,
          show severityMultiplier "High" = 3/2 from rfl,
          pyInt_eq (n := 3) (by norm_num) (by norm_num) (by norm_num)]
        decide
      · rw [show basePerPerson ResourceKind.MedicineKits = 3/10 from rfl,
          show severityMultiplier "High" = 3/2 from rfl,
          pyInt_eq (n := 0) (by norm_num) (by norm_num) (by norm_num)]
        decide
      · rw [show basePerPerson ResourceKind.ShelterUnits = 1/4 from rfl,
          show severityMultiplier "High" = 3/2 from rfl,
          pyInt_eq (n := 0) (by norm_num) (by norm_num) (by norm_num)]
        decide)

/-! ## Totality of the pass for the three documented severities -/

/-- The three severity strings the dict lookups of the allocator accept. -/
def validSeverity (s : String) : Prop :=
  s = "High" ∨ s = "Medium" ∨ s = "Low"

lemma severityWeights_isSome {s : String} (h : validSeverity s) :
    ∃ w, severityWeights s = some w := by
  rcases h with rfl | rfl | rfl <;> exact ⟨_, rfl⟩

lemma allocAmount_total (sev : String) (needed avail total : ℤ) (hsev : validSeverity sev) :
    ∃ x, allocAmount sev needed avail total = .ok x := by
  rw [allocAmount]
  split
  · exact ⟨needed, rfl⟩
  · obtain ⟨w, hw⟩ := severityWeights_isSome hsev
    simp only [hw]
    split <;> exact ⟨_, rfl⟩

lemma exists_ok {α : Type} {e : Except PyError α} : (∃ a, e = .ok a) ↔ e.isOk = true := by
  cases e <;> simp [Except.isOk, Except.toBool]

lemma collectKinds_total {f : ResourceKind → Except PyError ℤ}
    (h : ∀ k, ∃ x, f k = .ok x) : ∃ g, collectKinds f = .ok g := by
  obtain ⟨a, ha⟩ := h .FoodKits
  obtain ⟨b, hb⟩ := h .WaterPacks
  obtain ⟨c, hc⟩ := h .MedicineKits
  obtain ⟨e, he⟩ := h .ShelterUnits
  rw [exists_ok]
  unfold collectKinds
  rw [ha, ok_bind, hb, ok_bind, hc, ok_bind, he, ok_bind]
  rfl

lemma allocateToSingleDisaster_total (info : DisasterInfo) (avail total : Pool)
    (hsev : validSeverity info.severity) :
    ∃ r, allocateToSingleDisaster info avail total = .ok r := by
  obtain ⟨g, hg⟩ :=
    collectKinds_total fun k => allocAmount_total info.severity (info.needs k) (avail k)
      (total k) hsev
  rw [exists_ok]
  unfold allocateToSingleDisaster
  rw [hg, ok_bind]
  rfl

lemma runAllocation_total (total : Pool) :
    ∀ (infos : List DisasterInfo) (st : PassState),
      (∀ i ∈ infos, validSeverity i.severity) →
      ∃ out, runAllocation total infos st = .ok out := by
  intro infos
  induction infos with
  | nil => exact fun st _ => ⟨_, rfl⟩
  | cons i rest ih =>
    intro st hsev
    obtain ⟨r, hr⟩ :=
      allocateToSingleDisaster_total i st.remaining total (hsev i (by simp))
    obtain ⟨out, hout⟩ :=
      ih { st with remaining := fun k => st.remaining k - r.allocated k }
        fun j hj => hsev j (List.mem_cons_of_mem _ hj)
    rw [exists_ok]
    rw [runAllocation, allocationStep, hr]
    simp only [ok_bind]
    rw [hout, ok_bind]
    rfl

lemma severityStats_total {allocs : List AllocationRecord}
    (h : ∀ a ∈ allocs, validSeverity a.severity) :
    ∃ f, severityStats allocs = .ok f := by
  induction allocs with
  | nil => exact ⟨_, rfl⟩
  | cons a rest ih =>
    obtain ⟨f, hf⟩ := ih fun b hb => h b (List.mem_cons_of_mem _ hb)
    rw [exists_ok]
    rw [severityStats, hf, ok_bind,
      if_pos (show a.severity = "High" ∨ a.severity = "Medium" ∨ a.severity = "Low" from
        h a (by simp))]
    rfl

lemma infosOf_severity {disasters : List Disaster} {i : DisasterInfo}
    (hi : i ∈ infosOf disasters) : ∃ d ∈ disasters, i.severity = d.severity := by
  unfold infosOf at hi
  obtain ⟨p, hp, rfl⟩ := List.mem_map.mp hi
  exact ⟨p.2, List.snd_mem_of_mem_enum hp, rfl⟩

/-- With every severity one of High/Medium/Low, the whole pass succeeds. -/
lemma allocate_resources_total (disasters : List Disaster) (pool : Pool)
    (hsev : ∀ d ∈ disasters, validSeverity d.severity) :
    ∃ s, allocate_resources disasters pool = .ok s := by
  have hinfos : ∀ i ∈ sortByPriority (infosOf disasters), validSeverity i.severity := by
    intro i hi
    obtain ⟨d, hd, hde⟩ := infosOf_severity (mem_sortByPriority hi)
    rw [hde]
    exact hsev d hd
  obtain ⟨out, hout⟩ :=
    runAllocation_total (totalNeeds disasters) (sortByPriority (infosOf disasters))
      { callerPool := pool, remaining := pool } hinfos
  have hrecsev : ∀ a ∈ out.1, validSeverity a.severity := by
    intro a ha
    have hmap := (runAllocation_ok hout).2.2.1
    have : a.severity ∈ (out.1.map fun a => a.severity) := List.mem_map_of_mem _ ha
    rw [hmap] at this
    obtain ⟨i, hi, hie⟩ := List.mem_map.mp this
    rw [← hie]
    exact hinfos i hi
  obtain ⟨f, hf⟩ := severityStats_total hrecsev
  rw [exists_ok]
  unfold allocate_resources allocateResourcesSt
  rw [hout]
  simp only [ok_bind]
  unfold prepareAllocationSummary
  rw [hf, ok_bind, ok_bind]
  rfl

lemma length_insertByPriority (a : DisasterInfo) (l : List DisasterInfo) :
    (insertByPriority a l).length = l.length + 1 := by
  induction l with
  | nil => rfl
  | cons b bs ih =>
    rw [insertByPriority]
    split
    · simp
    · simp [ih]

lemma length_sortByPriority (l : List DisasterInfo) :
    (sortByPriority l).length = l.length := by
  induction l with
  | nil => rfl
  | cons x xs ih =>
    rw [sortByPriority, length_insertByPriority, ih, List.length_cons]

lemma allocations_length {disasters : List Disaster} {pool : Pool} {s : AllocationSummary}
    (h : allocate_resources disasters pool = .ok s) :
    s.allocations.length = disasters.length := by
  obtain ⟨out, hrun, hsum⟩ := allocate_resources_ok h
  have h4 := (runAllocation_ok hrun).2.2.2
  rw [(prepareAllocationSummary_ok hsum).1, h4, length_sortByPriority]
  unfold infosOf
  rw [List.length_map, List.enum_length]

/-! ## C9: the caller's pool is never mutated -/

/-- The summary `allocate_resources` returns on an empty disaster list. -/
def emptySummaryOf (pool : Pool) : AllocationSummary :=
  { allocations := []
    total_disasters := 0
    total_people_affected := 0
    resource_utilization := fun k =>
      if 0 < pool k then (((0 : ℤ) : ℚ) / ((pool k : ℤ) : ℚ)) * 100 else 0
    avg_fulfillment_by_severity := fun _ => avgOf []
    total_allocated := fun _ => 0
    remaining_resources := pool
    total_needs := fun _ => 0 }

lemma allocate_empty (pool : Pool) :
    allocateResourcesSt [] pool = .ok (emptySummaryOf pool, pool) := rfl

/-- C9: an allocation pass leaves the caller's pool unchanged — the pass
mutates only the `.copy()` made at its start, and the depleted
remaining-resources mapping it returns is that copy: its value is the
initial pool minus exactly the allocated totals, while the caller's dict is
returned untouched. -/
theorem caller_pool_not_mutated (disasters : List Disaster) (pool : Pool)
    (s : AllocationSummary) (callerAfter : Pool) (k : ResourceKind)
    (h : allocateResourcesSt disasters pool = .ok (s, callerAfter)) :
    callerAfter = pool ∧
    s.remaining_resources k = pool k - (s.allocations.map fun a => a.allocated k).sum := by
  unfold allocateResourcesSt at h
  rcases hrun : runAllocation (totalNeeds disasters) (sortByPriority (infosOf disasters))
      { callerPool := pool, remaining := pool } with e | out <;>
    rw [hrun] at h
  · rw [error_bind] at h
    exact Except.noConfusion h
  · rw [ok_bind] at h
    rcases hsum : prepareAllocationSummary disasters out.1 pool out.2.remaining
        (totalNeeds disasters) with e | s' <;> rw [hsum] at h
    · rw [error_bind] at h
      exact Except.noConfusion h
    · rw [ok_bind] at h
      injection h with h
      rw [Prod.mk.injEq] at h
      obtain ⟨hs, hc⟩ := h
      obtain ⟨hcaller, hrem, _, _⟩ := runAllocation_ok hrun
      obtain ⟨halloc, hremres, _⟩ := prepareAllocationSummary_ok hsum
      constructor
      · rw [← hc, hcaller]
      · rw [← hs, hremres, halloc]
        have := hrem k
        dsimp only at this
        omega

/-- Witness for C9 at a concrete input. -/
theorem caller_pool_not_mutated_witness :
    (fun _ : ResourceKind => (7 : ℤ)) = (fun _ : ResourceKind => (7 : ℤ)) ∧
    (emptySummaryOf fun _ : ResourceKind => (7 : ℤ)).remaining_resources ResourceKind.FoodKits =
      7 - 0 :=
  caller_pool_not_mutated [] (fun _ => 7) (emptySummaryOf fun _ => 7) (fun _ => 7)
    ResourceKind.FoodKits (allocate_empty _)

/-! ## C10: totality for valid severities, KeyError for others -/

lemma collectKinds_error_food {f : ResourceKind → Except PyError ℤ}
    (h : f .FoodKits = .error .keyError) : collectKinds f = .error .keyError := by
  unfold collectKinds
  rw [h, error_bind]


/-- An input disaster with an unrecognised severity string. -/
def badSevDisaster : Disaster := ⟨"Severe", 10, "flood", "L"⟩

lemma badSev_base_food : calculate_base_need 10 "Severe" .FoodKits = 8 := by
  rw [calculate_base_need, show severityMultiplier "Severe" = 1 from rfl,
    show basePerPerson ResourceKind.FoodKits = 4/5 from rfl,
    pyInt_eq (n := 8) (by norm_num) (by norm_num) (by norm_num)]
  decide

lemma badSev_needs_food : needsOf badSevDisaster .FoodKits = 8 := by
  have hadj : findAdjustment "flood" ResourceKind.FoodKits = none := rfl
  simp only [needsOf, adjust_for_disaster_type, hadj]
  exact badSev_base_food

lemma badSev_needs_water : needsOf badSevDisaster .WaterPacks = 14 := by
  have hb : calculate_base_need 10 "Severe" .WaterPacks = 12 := by
    rw [calculate_base_need, show severityMultiplier "Severe" = 1 from rfl,
      show basePerPerson ResourceKind.WaterPacks = 6/5 from rfl,
      pyInt_eq (n := 12) (by norm_num) (by norm_num) (by norm_num)]
    decide
  show pyInt ((calculate_base_need 10 "Severe" ResourceKind.WaterPacks : ℚ) * (6/5)) = 14
  rw [hb]
  exact pyInt_eq (by norm_num) (by norm_num) (by norm_num)

lemma badSev_needs_medicine : needsOf badSevDisaster .MedicineKits = 3 := by
  have hb : calculate_base_need 10 "Severe" .MedicineKits = 3 := by
    rw [calculate_base_need, show severityMultiplier "Severe" = 1 from rfl,
      show basePerPerson ResourceKind.MedicineKits = 3/10 from rfl,
      pyInt_eq (n := 3) (by norm_num) (by norm_num) (by norm_num)]
    decide
  show pyInt ((calculate_base_need 10 "Severe" ResourceKind.MedicineKits : ℚ) * (11/10)) = 3
  rw [hb]
  exact pyInt_eq (by norm_num) (by norm_num) (by norm_num)

lemma badSev_needs_shelter : needsOf badSevDisaster .ShelterUnits = 2 := by
  have hb : calculate_base_need 10 "Severe" .ShelterUnits = 2 := by
    rw [calculate_base_need, show severityMultiplier "Severe" = 1 from rfl,
      show basePerPerson ResourceKind.ShelterUnits = 1/4 from rfl,
      pyInt_eq (n := 2) (by norm_num) (by norm_num) (by norm_num)]
    decide
  show pyInt ((calculate_base_need 10 "Severe" ResourceKind.ShelterUnits : ℚ) * (13/10)) = 2
  rw [hb]
  exact pyInt_eq (by norm_num) (by norm_num) (by norm_num)

/-- Under scarcity the severity-weight lookup for the unknown severity
raises: the single-disaster call errors against an empty pool. -/
lemma badSev_scarcity_error :
    allocate_resources [badSevDisaster] (fun _ => 0) = .error .keyError := by
  have hfood : allocAmount "Severe" (needsOf badSevDisaster .FoodKits)
      ((fun _ => (0 : ℤ)) ResourceKind.FoodKits) (totalNeeds [badSevDisaster] .FoodKits) =
      .error .keyError := by
    rw [badSev_needs_food, allocAmount,
      if_neg (show ¬ (8 : ℤ) ≤ (fun _ => (0 : ℤ)) ResourceKind.FoodKits by decide)]
    rfl
  have hcoll : collectKinds (fun k => allocAmount (singleInfo badSevDisaster).severity
      ((singleInfo badSevDisaster).needs k) ((fun _ => (0 : ℤ)) k)
      (totalNeeds [badSevDisaster] k)) = .error .keyError :=
    collectKinds_error_food hfood
  have hsingle : allocateToSingleDisaster (singleInfo badSevDisaster) (fun _ => 0)
      (totalNeeds [badSevDisaster]) = .error .keyError := by
    unfold allocateToSingleDisaster
    rw [hcoll, error_bind]
  unfold allocate_resources allocateResourcesSt
  rw [show sortByPriority (infosOf [badSevDisaster]) = [singleInfo badSevDisaster] from rfl,
    runAllocation, allocationStep, hsingle, error_bind, error_bind]
  rfl

/-- Without scarcity every kind takes the fast path, yet the summary's
severity grouping still raises for the unknown severity. -/
lemma badSev_summary_error :
    allocate_resources [badSevDisaster] (fun _ => 100) = .error .keyError := by
  have hfits : ∀ k, (singleInfo badSevDisaster).needs k ≤ (fun _ => (100 : ℤ)) k := by
    intro k
    show needsOf badSevDisaster k ≤ (100 : ℤ)
    cases k
    · rw [badSev_needs_food]; decide
    · rw [badSev_needs_water]; decide
    · rw [badSev_needs_medicine]; decide
    · rw [badSev_needs_shelter]; decide
  have hstats : severityStats [fastRecordOf (singleInfo badSevDisaster)] =
      .error .keyError := by
    rw [severityStats, severityStats, ok_bind,
      if_neg (show ¬ ((fastRecordOf (singleInfo badSevDisaster)).severity = "High" ∨
        (fastRecordOf (singleInfo badSevDisaster)).severity = "Medium" ∨
        (fastRecordOf (singleInfo badSevDisaster)).severity = "Low") by decide)]
  unfold allocate_resources allocateResourcesSt
  rw [show sortByPriority (infosOf [badSevDisaster]) = [singleInfo badSevDisaster] from rfl,
    runAllocation, allocationStep,
    allocateToSingleDisaster_fast (totalNeeds [badSevDisaster]) hfits]
  simp only [ok_bind]
  rw [runAllocation]
  simp only [ok_bind]
  rw [prepareAllocationSummary]
  rw [hstats, error_bind, error_bind]
  rfl

/-- C10: `allocate_resources` raises nothing for any non-empty disaster list
whose severities are all High/Medium/Low; an unknown severity string raises
`KeyError` in the scarcity branch's severity-weight lookup (shown both
abstractly and on a concrete scarce run) and in the summary's grouping of
fulfillment rates even without scarcity, although the need computation
itself silently defaults the unknown severity's multiplier to `1`. -/
theorem allocator_totality_and_unknown_severity :
    (∀ (disasters : List Disaster) (pool : Pool), disasters ≠ [] →
      (∀ d ∈ disasters, validSeverity d.severity) →
      (allocate_resources disasters pool).isOk = true) ∧
    (∀ needed avail total : ℤ, avail < needed →
      allocAmount "Severe" needed avail total = .error .keyError) ∧
    allocate_resources [badSevDisaster] (fun _ => 0) = .error .keyError ∧
    allocate_resources [badSevDisaster] (fun _ => 100) = .error .keyError ∧
    (∀ (sev : String) (p : ℕ) (k : ResourceKind), ¬ validSeverity sev →
      severityMultiplier sev = 1 ∧
      calculate_base_need p sev k = max 1 (pyInt ((p : ℚ) * basePerPerson k * 1))) := by
  refine ⟨?_, ?_, badSev_scarcity_error, badSev_summary_error, ?_⟩
  · intro disasters pool _ hsev
    obtain ⟨s, hs⟩ := allocate_resources_total disasters pool hsev
    rw [hs]
    rfl
  · intro needed avail total h
    rw [allocAmount, if_neg (not_le.mpr h)]
    rfl
  · intro sev p k hnv
    unfold validSeverity at hnv
    push_neg at hnv
    obtain ⟨h1, h2, h3⟩ := hnv
    have hmult : severityMultiplier sev = 1 := by
      rw [severityMultiplier, severityMultipliers, if_neg h1, if_neg h2, if_neg h3]
      rfl
    exact ⟨hmult, by rw [calculate_base_need, hmult]⟩

/-- Witness for C10 at a concrete input. -/
theorem allocator_totality_witness :
    (allocate_resources [⟨"High", 1, "flood", "L"⟩] (fun _ => 0)).isOk = true :=
  allocator_totality_and_unknown_severity.1 [⟨"High", 1, "flood", "L"⟩] (fun _ => 0)
    (by simp)
    (by
      intro d hd
      simp only [List.mem_singleton] at hd
      subst hd
      exact Or.inl rfl)

/-! ## C6: there is no pool validation -/

/-- A pool with a negative FoodKits quantity. -/
def negPoolA : Pool := fun k =>
  match k with
  | .FoodKits => -5
  | _ => 100

/-- A pool with a negative ShelterUnits quantity. -/
def negPoolB : Pool := fun k =>
  match k with
  | .ShelterUnits => -1
  | _ => 50

/-- Counterexample to C6: a pool containing a negative quantity is not
rejected — no exception of any kind is raised (there is no
`InvalidPoolError` anywhere in the code), and a full allocation result is
produced for the invalid pool. -/
theorem invalid_pool_counterexample :
    (allocate_resources [⟨"High", 10, "flood", "L"⟩] negPoolA).isOk = true ∧
    (allocate_resources [⟨"High", 10, "flood", "L"⟩] negPoolA).toOption.map
      (fun s => s.allocations.length) = some 1 := by
  obtain ⟨s, hs⟩ := allocate_resources_total [⟨"High", 10, "flood", "L"⟩] negPoolA
    (by
      intro d hd
      simp only [List.mem_singleton] at hd
      subst hd
      exact Or.inl rfl)
  rw [hs]
  refine ⟨rfl, ?_⟩
  have := allocations_length hs
  simp [Except.toOption, this]

/-- C6 as amended: the allocator performs no pool validation at all — for a
pool with a negative quantity (and any disasters with recognised
severities) the pass runs to completion, raises nothing, and produces one
allocation record per disaster. -/
theorem no_pool_validation (disasters : List Disaster) (pool : Pool) (k0 : ResourceKind)
    (_hneg : pool k0 < 0) (hsev : ∀ d ∈ disasters, validSeverity d.severity) :
    (allocate_resources disasters pool).isOk = true ∧
    (allocate_resources disasters pool).toOption.map (fun s => s.allocations.length) =
      some disasters.length := by
  obtain ⟨s, hs⟩ := allocate_resources_total disasters pool hsev
  rw [hs]
  refine ⟨rfl, ?_⟩
  have := allocations_length hs
  simp [Except.toOption, this]

/-- Witness for the amended C6 at a concrete input. -/
theorem no_pool_validation_witness :
    (allocate_resources [⟨"Low", 3, "storm", "X"⟩] negPoolB).isOk = true ∧
    (allocate_resources [⟨"Low", 3, "storm", "X"⟩] negPoolB).toOption.map
      (fun s => s.allocations.length) = some 1 :=
  no_pool_validation [⟨"Low", 3, "storm", "X"⟩] negPoolB .ShelterUnits (by decide)
    (by
      intro d hd
      simp only [List.mem_singleton] at hd
      subst hd
      exact Or.inr (Or.inr rfl))

/-! ## C5: the need-estimation formula -/

/-- The per-kind need quantity exactly as claim C5 states it:
`max(1, floor(people_affected * base_rate * severity_multiplier * type_adjustment))`. -/
def specNeedFormula (p : ℕ) (rate mult adj : ℚ) : ℤ :=
  max 1 ⌊(p : ℚ) * rate * mult * adj⌋

/-- Counterexample to C5: for people_affected 1, severity Low, type drought,
the MedicineKits need computed by the code is `0` (the `max(1, ·)` is
applied before the type adjustment and never after), while the claim's
formula gives `1` — so the claimed formula is wrong and the claimed
at-least-1 guarantee fails. -/
theorem need_formula_counterexample :
    needsOf ⟨"Low", 1, "drought", "X"⟩ .MedicineKits = 0 ∧
    specNeedFormula 1 (3/10) 1 (4/5) = 1 ∧ ((0 : ℤ) ≠ 1) := by
  refine ⟨?_, ?_, by decide⟩
  · have hb : calculate_base_need 1 "Low" .MedicineKits = 1 := by
      rw [calculate_base_need, show severityMultiplier "Low" = 1 from rfl,
        show basePerPerson ResourceKind.MedicineKits = 3/10 from rfl,
        pyInt_eq (n := 0) (by norm_num) (by norm_num) (by norm_num)]
      decide
    show pyInt ((calculate_base_need 1 "Low" ResourceKind.MedicineKits : ℚ) * (4/5)) = 0
    rw [hb]
    exact pyInt_eq (by norm_num) (by norm_num) (by norm_num)
  · have hf : ⌊((1 : ℕ) : ℚ) * (3/10) * 1 * (4/5)⌋ = 0 :=
      Int.floor_eq_iff.mpr (by norm_num)
    rw [specNeedFormula, hf]
    decide

lemma pyInt_intCast (n : ℤ) : pyInt ((n : ℚ)) = n := by
  unfold pyInt
  split
  · exact Int.ceil_intCast n
  · exact Int.floor_intCast n

/-- C5 as amended: each final per-kind quantity equals
`floor(max(1, floor(people_affected * base_rate * severity_multiplier)) * type_adjustment)`
— the `max(1, ·)` lower bound applies before the disaster-type adjustment
only, so the pre-adjustment quantity is always at least 1, while an
adjustment factor below 1 can drive the final quantity to 0 even when
`people_affected > 0`. -/
theorem need_estimation_amended (p : ℕ) (sev dtype loc : String) (k : ResourceKind) :
    needsOf ⟨sev, p, dtype, loc⟩ k =
      pyInt ((max 1 (pyInt ((p : ℚ) * basePerPerson k * severityMultiplier sev)) : ℤ) *
        ((findAdjustment dtype k).getD 1)) ∧
    1 ≤ max 1 (pyInt ((p : ℚ) * basePerPerson k * severityMultiplier sev)) := by
  refine ⟨?_, le_max_left _ _⟩
  have h0 : needsOf ⟨sev, p, dtype, loc⟩ k =
      (match findAdjustment dtype k with
       | some f => pyInt ((calculate_base_need p sev k : ℚ) * f)
       | none => calculate_base_need p sev k) := rfl
  rcases hf : findAdjustment dtype k with _ | f
  · rw [h0, hf]
    show calculate_base_need p sev k =
      pyInt ((max 1 (pyInt ((p : ℚ) * basePerPerson k * severityMultiplier sev)) : ℤ) * 1)
    rw [mul_one, pyInt_intCast]
    rfl
  · rw [h0, hf]
    rfl

/-! ## C4: priority ordering of fulfillment rates -/

/-- High-severity disaster of the C4 scenario. -/
def dHi : Disaster := ⟨"High", 280, "tsunami", "A"⟩

/-- Low-severity disaster of the C4 scenario, same people_affected. -/
def dLo : Disaster := ⟨"Low", 280, "tsunami", "B"⟩

/-- The C4 pool: plentiful everywhere except ShelterUnits. -/
def scarceShelterPool : Pool := fun k =>
  match k with
  | .ShelterUnits => 100
  | _ => 1000

lemma dHi_needs_food : needsOf dHi .FoodKits = 336 := by
  show calculate_base_need 280 "High" ResourceKind.FoodKits = 336
  rw [calculate_base_need, show severityMultiplier "High" = 3/2 from rfl,
    show basePerPerson ResourceKind.FoodKits = 4/5 from rfl,
    pyInt_eq (n := 336) (by norm_num) (by norm_num) (by norm_num)]
  decide

lemma dHi_needs_water : needsOf dHi .WaterPacks = 504 := by
  show calculate_base_need 280 "High" ResourceKind.WaterPacks = 504
  rw [calculate_base_need, show severityMultiplier "High" = 3/2 from rfl,
    show basePerPerson ResourceKind.WaterPacks = 6/5 from rfl,
    pyInt_eq (n := 504) (by norm_num) (by norm_num) (by norm_num)]
  decide

lemma dHi_needs_medicine : needsOf dHi .MedicineKits = 126 := by
  show calculate_base_need 280 "High" ResourceKind.MedicineKits = 126
  rw [calculate_base_need, show severityMultiplier "High" = 3/2 from rfl,
    show basePerPerson ResourceKind.MedicineKits = 3/10 from rfl,
    pyInt_eq (n := 126) (by norm_num) (by norm_num) (by norm_num)]
  decide

lemma dHi_needs_shelter : needsOf dHi .ShelterUnits = 105 := by
  show calculate_base_need 280 "High" ResourceKind.ShelterUnits = 105
  rw [calculate_base_need, show severityMultiplier "High" = 3/2 from rfl,
    show basePerPerson ResourceKind.ShelterUnits = 1/4 from rfl,
    pyInt_eq (n := 105) (by norm_num) (by norm_num) (by norm_num)]
  decide

lemma dLo_needs_food : needsOf dLo .FoodKits = 224 := by
  show calculate_base_need 280 "Low" ResourceKind.FoodKits = 224
  rw [calculate_base_need, show severityMultiplier "Low" = 1 from rfl,
    show basePerPerson ResourceKind.FoodKits = 4/5 from rfl,
    pyInt_eq (n := 224) (by norm_num) (by norm_num) (by norm_num)]
  decide

lemma dLo_needs_water : needsOf dLo .WaterPacks = 336 := by
  show calculate_base_need 280 "Low" ResourceKind.WaterPacks = 336
  rw [calculate_base_need, show severityMultiplier "Low" = 1 from rfl,
    show basePerPerson ResourceKind.WaterPacks = 6/5 from rfl,
    pyInt_eq (n := 336) (by norm_num) (by norm_num) (by norm_num)]
  decide

lemma dLo_needs_medicine : needsOf dLo .MedicineKits = 84 := by
  show calculate_base_need 280 "Low" ResourceKind.MedicineKits = 84
  rw [calculate_base_need, show severityMultiplier "Low" = 1 from rfl,
    show basePerPerson ResourceKind.MedicineKits = 3/10 from rfl,
    pyInt_eq (n := 84) (by norm_num) (by norm_num) (by norm_num)]
  decide

lemma dLo_needs_shelter : needsOf dLo .ShelterUnits = 70 := by
  show calculate_base_need 280 "Low" ResourceKind.ShelterUnits = 70
  rw [calculate_base_need, show severityMultiplier "Low" = 1 from rfl,
    show basePerPerson ResourceKind.ShelterUnits = 1/4 from rfl,
    pyInt_eq (n := 70) (by norm_num) (by norm_num) (by norm_num)]
  decide

lemma c4_total_shelter : totalNeeds [dHi, dLo] .ShelterUnits = 175 := by
  show needsOf dHi .ShelterUnits + (needsOf dLo .ShelterUnits + 0) = 175
  rw [dHi_needs_shelter, dLo_needs_shelter]
  decide

/-- The two `disaster_info` entries of the C4 scenario, in input order. -/
def iHi : DisasterInfo := ⟨0, "High", 280, "tsunami", "A", needsOf dHi⟩

def iLo : DisasterInfo := ⟨1, "Low", 280, "tsunami", "B", needsOf dLo⟩

set_option exponentiation.threshold 400 in
lemma c4_sort : sortByPriority [iHi, iLo] = [iHi, iLo] := by
  have hb : priorityBefore iHi iLo = true := by decide
  rw [sortByPriority, sortByPriority, sortByPriority]
  show insertByPriority iHi (insertByPriority iLo []) = [iHi, iLo]
  rw [insertByPriority, insertByPriority, if_pos (by rw [hb])]

/-- What the pass allocates to the High disaster: full Food, Water and
Medicine needs, and the fair share 30 of the 100 remaining ShelterUnits. -/
def gHi : Pool := fun k =>
  match k with
  | .FoodKits => 336
  | .WaterPacks => 504
  | .MedicineKits => 126
  | .ShelterUnits => 30

/-- The allocation record the pass produces for the High disaster. -/
def recHi : AllocationRecord :=
  { disaster_index := iHi.index
    severity := iHi.severity
    people_affected := iHi.people_affected
    disaster_type := iHi.disaster_type
    location := iHi.location
    needed := iHi.needs
    allocated := gHi
    unmet_needs := fun k => iHi.needs k - gHi k
    fulfillment_rate := fulfillmentRate iHi.needs gHi }

lemma c4_allocHigh :
    allocateToSingleDisaster iHi scarceShelterPool (totalNeeds [dHi, dLo]) = .ok recHi := by
  apply allocateToSingleDisaster_eq
  intro k
  show allocAmount "High" (needsOf dHi k) (scarceShelterPool k) (totalNeeds [dHi, dLo] k) =
    .ok (gHi k)
  cases k
  · rw [dHi_needs_food]
    exact allocAmount_fast _ _ (by decide)
  · rw [dHi_needs_water]
    exact allocAmount_fast _ _ (by decide)
  · rw [dHi_needs_medicine]
    exact allocAmount_fast _ _ (by decide)
  · rw [dHi_needs_shelter, c4_total_shelter,
      show scarceShelterPool ResourceKind.ShelterUnits = 100 from rfl]
    rw [allocAmount, if_neg (show ¬ (105 : ℤ) ≤ 100 by decide)]
    simp only [show severityWeights "High" = some (1/2) from rfl]
    rw [if_pos (show (0 : ℤ) < 175 by decide)]
    rw [pyInt_eq (n := 30) (by norm_num) (by norm_num) (by norm_num)]
    rfl
lemma c4_allocLow :
    allocateToSingleDisaster iLo (fun k => scarceShelterPool k - recHi.allocated k)
      (totalNeeds [dHi, dLo]) = .ok (fastRecordOf iLo) :=
  allocateToSingleDisaster_fast _ (by
    intro k
    show needsOf dLo k ≤ scarceShelterPool k - recHi.allocated k
    cases k
    · rw [dLo_needs_food]
      decide
    · rw [dLo_needs_water]
      decide
    · rw [dLo_needs_medicine]
      decide
    · rw [dLo_needs_shelter]
      decide)

lemma c4_rate_high : fulfillmentRate iHi.needs gHi = 996/1071 := by
  have hn : sumKinds iHi.needs = 1071 := by
    show needsOf dHi .FoodKits + (needsOf dHi .WaterPacks +
      (needsOf dHi .MedicineKits + (needsOf dHi .ShelterUnits + 0))) = 1071
    rw [dHi_needs_food, dHi_needs_water, dHi_needs_medicine, dHi_needs_shelter]
    decide
  have hg : sumKinds gHi = 996 := by decide
  rw [fulfillmentRate, hn, hg, if_neg (by decide)]
  norm_num

/-- Counterexample to C4: two disasters with identical people_affected
(280), severities High and Low, same type, and a pool insufficient on
ShelterUnits (100 against a combined need of 175).  The High disaster is
processed first but its scarce kind goes through the severity-damped
fair-share formula (allocated 30 of its 105), while the Low disaster then
fits entirely into what remains (70 of 70) via the fast path: the High
disaster ends with fulfillment rate 996/1071 < 1 = the Low disaster's rate,
contradicting the claimed `High ≥ Low` ordering of fulfillment rates. -/
theorem priority_ordering_counterexample :
    (allocate_resources [dHi, dLo] scarceShelterPool).toOption.map
        (fun s => s.allocations.map fun r => (r.severity, r.fulfillment_rate)) =
      some [("High", 996/1071), ("Low", 1)] ∧
    scarceShelterPool .ShelterUnits < totalNeeds [dHi, dLo] .ShelterUnits ∧
    ¬ ((996 : ℚ)/1071 ≥ (1 : ℚ)) := by
  refine ⟨?_, by rw [c4_total_shelter]; decide, by norm_num⟩
  unfold allocate_resources allocateResourcesSt
  rw [show infosOf [dHi, dLo] = [iHi, iLo] from rfl, c4_sort]
  rw [runAllocation, allocationStep, c4_allocHigh]
  simp only [ok_bind]
  rw [runAllocation, allocationStep, c4_allocLow]
  simp only [ok_bind]
  rw [runAllocation]
  simp only [ok_bind]
  obtain ⟨f, hf⟩ := severityStats_total
    (show ∀ a ∈ [recHi, fastRecordOf iLo], validSeverity a.severity by
      intro a ha
      simp only [List.mem_cons, List.not_mem_nil, or_false] at ha
      rcases ha with rfl | rfl
      · exact Or.inl rfl
      · exact Or.inr (Or.inr rfl))
  unfold prepareAllocationSummary
  rw [hf, ok_bind]
  simp only [ok_bind, Except.map, Except.toOption, Option.map, List.map_cons, List.map_nil]
  rw [show recHi.fulfillment_rate = fulfillmentRate iHi.needs gHi from rfl, c4_rate_high,
    show (fastRecordOf iLo).fulfillment_rate = fulfillmentRate iLo.needs iLo.needs from rfl,
    fulfillmentRate_self,
    show recHi.severity = "High" from rfl,
    show (fastRecordOf iLo).severity = "Low" from rfl]

set_option exponentiation.threshold 400 in
/-- C4 as amended: for two disasters with severities High and Low and
identical people_affected, the High one's priority score strictly exceeds
the Low one's, so the descending stable sort processes the High disaster
first — it is allocated against the undepleted pool — whichever order the
two were supplied in.  (Its fulfillment rate can nevertheless end up below
the Low one's, as the counterexample shows.) -/
theorem priority_high_processed_first (iH iL : DisasterInfo)
    (hH : iH.severity = "High") (hL : iL.severity = "Low")
    (hp : iH.people_affected = iL.people_affected) :
    priorityBefore iH iL = true ∧ priorityBefore iL iH = false ∧
    sortByPriority [iH, iL] = [iH, iL] ∧ sortByPriority [iL, iH] = [iH, iL] := by
  have ha : 1 ≤ max 1 iL.people_affected := le_max_left _ _
  have hkey : priorityKey iH = (max 1 iL.people_affected) * 10 ^ 300 := by
    rw [priorityKey, hH, hp]
    rfl
  have hkeyL : priorityKey iL = (max 1 iL.people_affected) * 10 ^ 100 := by
    rw [priorityKey, hL]
    rfl
  have hlt : priorityKey iL < priorityKey iH := by
    rw [hkey, hkeyL]
    have hpow : (10 : ℕ) ^ 100 < 10 ^ 300 := Nat.pow_lt_pow_right (by norm_num) (by norm_num)
    exact mul_lt_mul_of_pos_left hpow (lt_of_lt_of_le Nat.zero_lt_one ha)
  have h1 : priorityBefore iH iL = true := decide_eq_true (le_of_lt hlt)
  have h2 : priorityBefore iL iH = false := decide_eq_false (not_le.mpr hlt)
  refine ⟨h1, h2, ?_, ?_⟩
  · show insertByPriority iH [iL] = [iH, iL]
    rw [insertByPriority, if_pos h1]
  · show insertByPriority iL [iH] = [iH, iL]
    rw [insertByPriority, if_neg (by simp [h2])]
    rfl

/-- Witness for the amended C4 at concrete inputs. -/
theorem priority_high_processed_first_witness :
    priorityBefore ⟨0, "High", 7, "t", "A", fun _ => 1⟩ ⟨1, "Low", 7, "t", "B", fun _ => 1⟩ =
      true ∧
    priorityBefore ⟨1, "Low", 7, "t", "B", fun _ => 1⟩ ⟨0, "High", 7, "t", "A", fun _ => 1⟩ =
      false ∧
    sortByPriority [⟨0, "High", 7, "t", "A", fun _ => 1⟩, ⟨1, "Low", 7, "t", "B", fun _ => 1⟩] =
      [⟨0, "High", 7, "t", "A", fun _ => 1⟩, ⟨1, "Low", 7, "t", "B", fun _ => 1⟩] ∧
    sortByPriority [⟨1, "Low", 7, "t", "B", fun _ => 1⟩, ⟨0, "High", 7, "t", "A", fun _ => 1⟩] =
      [⟨0, "High", 7, "t", "A", fun _ => 1⟩, ⟨1, "Low", 7, "t", "B", fun _ => 1⟩] :=
  priority_high_processed_first ⟨0, "High", 7, "t", "A", fun _ => 1⟩
    ⟨1, "Low", 7, "t", "B", fun _ => 1⟩ rfl rfl rfl

/-- Witness for the amended C5 at a concrete input. -/
theorem need_estimation_amended_witness :
    needsOf ⟨"Low", 1, "drought", "X"⟩ ResourceKind.MedicineKits =
      pyInt ((max 1 (pyInt (((1 : ℕ) : ℚ) * basePerPerson ResourceKind.MedicineKits *
        severityMultiplier "Low")) : ℤ) *
        ((findAdjustment "drought" ResourceKind.MedicineKits).getD 1)) ∧
    1 ≤ max 1 (pyInt (((1 : ℕ) : ℚ) * basePerPerson ResourceKind.MedicineKits *
      severityMultiplier "Low")) :=
  need_estimation_amended 1 "Low" "drought" "X" ResourceKind.MedicineKits

/-! ## Severity labelling (`src/data_preprocessing.py`) -/

/-- `DisasterDataPreprocessor.severity_thresholds`, the configuration object
set in `__init__`. -/
structure SeverityThresholds where
  deaths_low : ℕ
  deaths_medium : ℕ
  affected_low : ℕ
  affected_medium : ℕ
  damages_low : ℕ
  damages_medium : ℕ

/-- The default thresholds of `__init__`:
`{'deaths': {'low': 10, 'medium': 100}, 'affected': {'low': 1000, 'medium': 10000},
'damages': {'low': 1000000, 'medium': 10000000}}`. -/
def defaultThresholds : SeverityThresholds :=
  { deaths_low := 10, deaths_medium := 100
    affected_low := 1000, affected_medium := 10000
    damages_low := 1000000, damages_medium := 10000000 }

/-- One row of a disaster dataframe, as consulted by
`create_severity_labels` through `row.get(col, 0)`; absent values are `none`. -/
structure DataRow where
  year : Option ℤ
  disaster_type : Option String
  state : Option String
  district : Option String
  deaths : Option ℕ
  people_affected : Option ℕ
  damages : Option ℕ

/-- The per-row score accumulation of
`DisasterDataPreprocessor.create_severity_labels`. -/
def severityScoreOfRow (t : SeverityThresholds) (row : DataRow) : ℕ :=
  (if row.deaths.getD 0 ≥ t.deaths_medium then 3
   else if row.deaths.getD 0 ≥ t.deaths_low then 2 else 1) +
  (if row.people_affected.getD 0 ≥ t.affected_medium then 3
   else if row.people_affected.getD 0 ≥ t.affected_low then 2 else 1) +
  (if row.damages.getD 0 ≥ t.damages_medium then 3
   else if row.damages.getD 0 ≥ t.damages_low then 2 else 1)

/-- The score-to-label mapping of `create_severity_labels`:
`score >= 7 → 'High'`, `score >= 5 → 'Medium'`, else `'Low'`. -/
def scoreToLabel (score : ℕ) : String :=
  if score ≥ 7 then "High" else if score ≥ 5 then "Medium" else "Low"

/-- The severity label `create_severity_labels` assigns to one row. -/
def createSeverityLabel (t : SeverityThresholds) (row : DataRow) : String :=
  scoreToLabel (severityScoreOfRow t row)

/-! ## C7: severity labelling follows the documented scoring rule -/

/-- The labelling rule exactly as claim C7 states it, with literal
thresholds (for comparison against the configured implementation). -/
def specSeverityLabel (deaths affected damages : ℕ) : String :=
  let score :=
    (if 100 ≤ deaths then 3 else if 10 ≤ deaths then 2 else 1) +
    (if 10000 ≤ affected then 3 else if 1000 ≤ affected then 2 else 1) +
    (if 10000000 ≤ damages then 3 else if 1000000 ≤ damages then 2 else 1)
  if 7 ≤ score then "High" else if 5 ≤ score then "Medium" else "Low"

/-- A row carrying exactly the three impact numbers. -/
def impactRow (deaths affected damages : ℕ) : DataRow :=
  { year := none, disaster_type := none, state := none, district := none
    deaths := some deaths, people_affected := some affected, damages := some damages }

/-- C7: for every record with non-negative deaths, people_affected and
damages, the severity label is computed by summing the three documented
sub-scores (deaths ≥100→3, ≥10→2, else 1; people_affected ≥10000→3, ≥1000→2,
else 1; damages ≥10,000,000→3, ≥1,000,000→2, else 1), a total in `[3, 9]`,
mapped to High when ≥ 7, Medium when ≥ 5, Low otherwise; in particular
(150, 20000, 15000000) ↦ High and (5, 500, 500000) ↦ Low. -/
theorem severity_labeling_follows_documented_rule (deaths affected damages : ℕ) :
    3 ≤ severityScoreOfRow defaultThresholds (impactRow deaths affected damages) ∧
    severityScoreOfRow defaultThresholds (impactRow deaths affected damages) ≤ 9 ∧
    createSeverityLabel defaultThresholds (impactRow deaths affected damages) =
      specSeverityLabel deaths affected damages ∧
    createSeverityLabel defaultThresholds (impactRow 150 20000 15000000) = "High" ∧
    createSeverityLabel defaultThresholds (impactRow 5 500 500000) = "Low" := by
  refine ⟨?_, ?_, rfl, rfl, rfl⟩ <;>
    · unfold severityScoreOfRow
      split_ifs <;> norm_num

/-- Witness for C7 at a concrete input. -/
theorem severity_labeling_follows_documented_rule_witness :
    3 ≤ severityScoreOfRow defaultThresholds (impactRow 150 20000 15000000) ∧
    severityScoreOfRow defaultThresholds (impactRow 150 20000 15000000) ≤ 9 ∧
    createSeverityLabel defaultThresholds (impactRow 150 20000 15000000) =
      specSeverityLabel 150 20000 15000000 ∧
    createSeverityLabel defaultThresholds (impactRow 150 20000 15000000) = "High" ∧
    createSeverityLabel defaultThresholds (impactRow 5 500 500000) = "Low" :=
  severity_labeling_follows_documented_rule 150 20000 15000000

/-! ## C8: the severity label depends only on the three impact numbers -/

/-- C8: two rows that agree on deaths, people_affected and damages receive
the same severity label, whatever their disaster_type, state, year or
district are — the label is a pure function of the three impact numbers. -/
theorem severity_label_pure_in_impact_numbers (t : SeverityThresholds) (r1 r2 : DataRow)
    (hd : r1.deaths = r2.deaths) (ha : r1.people_affected = r2.people_affected)
    (hm : r1.damages = r2.damages) :
    createSeverityLabel t r1 = createSeverityLabel t r2 := by
  unfold createSeverityLabel severityScoreOfRow
  rw [hd, ha, hm]

/-- Witness for C8: two concrete rows differing in year, disaster_type,
state and district but with identical impact numbers get the same label. -/
theorem severity_label_pure_in_impact_numbers_witness :
    createSeverityLabel defaultThresholds
        { year := some 2001, disaster_type := some "flood", state := some "Kerala"
          district := some "A", deaths := some 12, people_affected := some 2000
          damages := some 5000000 } =
      createSeverityLabel defaultThresholds
        { year := some 1977, disaster_type := some "earthquake", state := some "Assam"
          district := some "B", deaths := some 12, people_affected := some 2000
          damages := some 5000000 } :=
  severity_label_pure_in_impact_numbers defaultThresholds _ _ rfl rfl rfl

end DisasterRelief
